import Mathlib

/-!
Verification of the `traffic_main` shared kernel against its specification.

The Python module `src/shared_kernel/value_objects/bounding_box.py` defines a
frozen dataclass `BoundingBox` whose `__post_init__` validates four invariants
(`x1 < x2`, `y1 < y2`, `x1 ≥ 0`, `y1 ≥ 0`) and raises `InvalidBoundingBoxError`
on the first violation.  All geometric operations are embedded here over exact
rational coordinates; a construction that may raise is embedded as an `Except`
returning either the error value or the constructed box.  The module
`src/shared_kernel/result.py` defines a two-variant `Result` container whose
`inspect` / `inspect_err` taps are embedded with an explicit invocation trace;
an attribute lookup that fails at runtime is embedded as a Python-level error.
-/

namespace Traffic

/-- The payload of `InvalidBoundingBoxError`: which invariant failed and the
offending coordinate value(s), mirroring the f-string messages in
`BoundingBox.__post_init__`. -/
inductive BoxError where
  /-- Message "x1 (…) must be less than x2 (…)". -/
  | x1GeX2 (x1 x2 : ℚ)
  /-- Message "y1 (…) must be less than y2 (…)". -/
  | y1GeY2 (y1 y2 : ℚ)
  /-- Message "x1 (…) must be non-negative". -/
  | x1Neg (x1 : ℚ)
  /-- Message "y1 (…) must be non-negative". -/
  | y1Neg (y1 : ℚ)
deriving DecidableEq, Repr

/-- The four coordinates of a `BoundingBox` dataclass instance. -/
structure BoundingBox where
  x1 : ℚ
  y1 : ℚ
  x2 : ℚ
  y2 : ℚ
deriving DecidableEq, Repr

namespace BoundingBox

/-- The invariants enforced by `__post_init__`. -/
def Valid (b : BoundingBox) : Prop :=
  b.x1 < b.x2 ∧ b.y1 < b.y2 ∧ 0 ≤ b.x1 ∧ 0 ≤ b.y1

instance (b : BoundingBox) : Decidable (Valid b) := by
  unfold Valid; infer_instance

/-- Constructor `BoundingBox(x1, y1, x2, y2)`: the dataclass constructor followed by
`__post_init__`, which checks the invariants in source order and raises
`InvalidBoundingBoxError` on the first violation. -/
def mk' (x1 y1 x2 y2 : ℚ) : Except BoxError BoundingBox :=
  if x1 ≥ x2 then .error (.x1GeX2 x1 x2)
  else if y1 ≥ y2 then .error (.y1GeY2 y1 y2)
  else if x1 < 0 then .error (.x1Neg x1)
  else if y1 < 0 then .error (.y1Neg y1)
  else .ok ⟨x1, y1, x2, y2⟩

/-- Property `width`: `x2 - x1`. -/
def width (b : BoundingBox) : ℚ := b.x2 - b.x1

/-- Property `height`: `y2 - y1`. -/
def height (b : BoundingBox) : ℚ := b.y2 - b.y1

/-- Property `area`: `width * height`. -/
def area (b : BoundingBox) : ℚ := b.width * b.height

/-- Property `center`: `((x1 + x2) / 2, (y1 + y2) / 2)`. -/
def center (b : BoundingBox) : ℚ × ℚ := ((b.x1 + b.x2) / 2, (b.y1 + b.y2) / 2)

/-- Method `overlaps(other)`:
`not (x2 <= other.x1 or x1 >= other.x2 or y2 <= other.y1 or y1 >= other.y2)`. -/
def overlaps (a b : BoundingBox) : Bool :=
  !(decide (a.x2 ≤ b.x1) || decide (a.x1 ≥ b.x2) ||
    decide (a.y2 ≤ b.y1) || decide (a.y1 ≥ b.y2))

/-- Method `iou(other)`: intersection over union, returning exactly `0` when the
per-axis intersection rectangle is degenerate. -/
def iou (a b : BoundingBox) : ℚ :=
  let inter_x1 := max a.x1 b.x1
  let inter_y1 := max a.y1 b.y1
  let inter_x2 := min a.x2 b.x2
  let inter_y2 := min a.y2 b.y2
  if inter_x2 ≤ inter_x1 ∨ inter_y2 ≤ inter_y1 then 0
  else
    let intersection_area := (inter_x2 - inter_x1) * (inter_y2 - inter_y1)
    let union_area := a.area + b.area - intersection_area
    intersection_area / union_area

/-- The `intersection_area` value computed inside `iou`. -/
def interArea (a b : BoundingBox) : ℚ :=
  (min a.x2 b.x2 - max a.x1 b.x1) * (min a.y2 b.y2 - max a.y1 b.y1)

/-- Method `intersection(other)`: `None` when the per-axis overlap is degenerate,
otherwise a box built through the validating constructor (so in principle the
construction could raise, which the outer `Except` records). -/
def intersection (a b : BoundingBox) : Except BoxError (Option BoundingBox) :=
  let inter_x1 := max a.x1 b.x1
  let inter_y1 := max a.y1 b.y1
  let inter_x2 := min a.x2 b.x2
  let inter_y2 := min a.y2 b.y2
  if inter_x2 ≤ inter_x1 ∨ inter_y2 ≤ inter_y1 then .ok none
  else (mk' inter_x1 inter_y1 inter_x2 inter_y2).map some

/-- Method `translate(dx, dy)`: shifts all four coordinates and constructs the result
with `BoundingBox(...)`, hence through `__post_init__` validation. -/
def translate (b : BoundingBox) (dx dy : ℚ) : Except BoxError BoundingBox :=
  mk' (b.x1 + dx) (b.y1 + dy) (b.x2 + dx) (b.y2 + dy)

/-- Method `scale(factor)`: scales about the center, clamps `x1`/`y1` at `0`, and
constructs the result with `BoundingBox(...)`, hence validated. -/
def scale (b : BoundingBox) (factor : ℚ) : Except BoxError BoundingBox :=
  let cx := b.center.1
  let cy := b.center.2
  let new_half_width := b.width * factor / 2
  let new_half_height := b.height * factor / 2
  mk' (max 0 (cx - new_half_width)) (max 0 (cy - new_half_height))
    (cx + new_half_width) (cy + new_half_height)

/-- Method `edge_distance(other)`: `0.0` when `overlaps`, otherwise the Euclidean
norm of the per-axis gaps `max(other.x1 - x2, x1 - other.x2, 0)` and the
analogous y-gap.  The square root forces the result into `ℝ`. -/
noncomputable def edge_distance (a b : BoundingBox) : ℝ :=
  if overlaps a b then 0
  else
    let dx : ℚ := max (max (b.x1 - a.x2) (a.x1 - b.x2)) 0
    let dy : ℚ := max (max (b.y1 - a.y2) (a.y1 - b.y2)) 0
    Real.sqrt ((dx : ℝ) ^ 2 + (dy : ℝ) ^ 2)

end BoundingBox

/-- Runtime errors of the Python interpreter itself (as opposed to domain
errors): raised when an attribute lookup fails. -/
inductive PyError where
  | attributeError
deriving DecidableEq, Repr

/-- The `Result[T, E]` container: `Ok(value)` or `Err(error)`. -/
inductive PyResult (T E : Type) where
  | Ok (value : T)
  | Err (error : E)
deriving DecidableEq, Repr

namespace PyResult

/-- Method `inspect(fn)`.  `Ok.inspect` runs `fn(self.value)` and returns `self`;
`Err.inspect` as written also evaluates `self.value`, but `Err` (a frozen
slots dataclass with single field `error`) has no attribute `value`, so the
lookup raises `AttributeError` before `fn` is ever invoked.  The returned pair
carries the invocation trace: the list of arguments `fn` was called on. -/
def inspect (r : PyResult T E) (fn : T → Unit) :
    Except PyError (PyResult T E × List T) :=
  match r with
  | .Ok v =>
    let _ := fn v
    .ok (.Ok v, [v])
  | .Err _ => .error .attributeError

/-- Method `inspect_err(fn)`.  `Ok.inspect_err` returns `self` without calling `fn`;
`Err.inspect_err` as written also just does `return self`, never invoking
`fn` on the error.  The invocation trace is therefore empty in both cases. -/
def inspect_err (r : PyResult T E) (_fn : E → Unit) :
    Except PyError (PyResult T E × List E) :=
  match r with
  | .Ok v => .ok (.Ok v, [])
  | .Err e => .ok (.Err e, [])

end PyResult

namespace BoundingBox

/-! ### Helper lemmas -/

/-- Under validity, `overlaps` is false exactly when the per-axis overlap
rectangle computed by `iou` / `intersection` is degenerate. -/
lemma overlaps_false_iff_degenerate (a b : BoundingBox)
    (ha : a.Valid) (hb : b.Valid) :
    overlaps a b = false ↔
      min a.x2 b.x2 ≤ max a.x1 b.x1 ∨ min a.y2 b.y2 ≤ max a.y1 b.y1 := by
  obtain ⟨hax, hay, _, _⟩ := ha
  obtain ⟨hbx, hby, _, _⟩ := hb
  have hov : overlaps a b = false ↔
      (a.x2 ≤ b.x1 ∨ b.x2 ≤ a.x1 ∨ a.y2 ≤ b.y1 ∨ b.y2 ≤ a.y1) := by
    simp only [overlaps, Bool.not_eq_false', Bool.or_eq_true, decide_eq_true_eq,
      ge_iff_le]
    tauto
  rw [hov]
  constructor
  · rintro (h | h | h | h)
    · exact Or.inl (le_trans (min_le_left _ _) (le_trans h (le_max_right _ _)))
    · exact Or.inl (le_trans (min_le_right _ _) (le_trans h (le_max_left _ _)))
    · exact Or.inr (le_trans (min_le_left _ _) (le_trans h (le_max_right _ _)))
    · exact Or.inr (le_trans (min_le_right _ _) (le_trans h (le_max_left _ _)))
  · rintro (h | h)
    · rcases min_le_iff.mp h with h' | h' <;> rcases le_max_iff.mp h' with h'' | h''
      · exact absurd h'' (not_le.mpr hax)
      · exact Or.inl h''
      · exact Or.inr (Or.inl h'')
      · exact absurd h'' (not_le.mpr hbx)
    · rcases min_le_iff.mp h with h' | h' <;> rcases le_max_iff.mp h' with h'' | h''
      · exact absurd h'' (not_le.mpr hay)
      · exact Or.inr (Or.inr (Or.inl h''))
      · exact Or.inr (Or.inr (Or.inr h''))
      · exact absurd h'' (not_le.mpr hby)

/-- The constructor succeeds on the per-axis overlap of two valid boxes when
that overlap is non-degenerate. -/
lemma mk'_inter_ok (a b : BoundingBox) (ha : a.Valid)
    (hx : max a.x1 b.x1 < min a.x2 b.x2) (hy : max a.y1 b.y1 < min a.y2 b.y2) :
    mk' (max a.x1 b.x1) (max a.y1 b.y1) (min a.x2 b.x2) (min a.y2 b.y2) =
      .ok ⟨max a.x1 b.x1, max a.y1 b.y1, min a.x2 b.x2, min a.y2 b.y2⟩ := by
  obtain ⟨_, _, hax1, hay1⟩ := ha
  have h1 : ¬ (max a.x1 b.x1 ≥ min a.x2 b.x2) := not_le.mpr hx
  have h2 : ¬ (max a.y1 b.y1 ≥ min a.y2 b.y2) := not_le.mpr hy
  have h3 : ¬ (max a.x1 b.x1 < 0) := not_lt.mpr (le_trans hax1 (le_max_left _ _))
  have h4 : ¬ (max a.y1 b.y1 < 0) := not_lt.mpr (le_trans hay1 (le_max_left _ _))
  simp [mk', h1, h2, h3, h4]

/-- Under no validity assumption, `overlaps` is true exactly when both
coordinate ranges overlap strictly. -/
lemma overlaps_true_iff (a b : BoundingBox) :
    overlaps a b = true ↔
      b.x1 < a.x2 ∧ a.x1 < b.x2 ∧ b.y1 < a.y2 ∧ a.y1 < b.y2 := by
  simp only [overlaps, Bool.not_eq_true', Bool.or_eq_false_iff,
    decide_eq_false_iff_not, not_le, ge_iff_le]
  tauto

/-- A sum of two squares of rational casts is non-positive exactly when both
rationals vanish. -/
lemma sq_sum_nonpos_iff (p q : ℚ) :
    (p : ℝ) ^ 2 + (q : ℝ) ^ 2 ≤ 0 ↔ p = 0 ∧ q = 0 := by
  constructor
  · intro h
    have hp : (p : ℝ) ^ 2 = 0 :=
      le_antisymm (by nlinarith [sq_nonneg (q : ℝ)]) (sq_nonneg _)
    have hq : (q : ℝ) ^ 2 = 0 :=
      le_antisymm (by nlinarith [sq_nonneg (p : ℝ)]) (sq_nonneg _)
    constructor
    · exact_mod_cast sq_eq_zero_iff.mp hp
    · exact_mod_cast sq_eq_zero_iff.mp hq
  · rintro ⟨hp, hq⟩
    rw [hp, hq]
    norm_num

/-- The clamped gap `max (max A B) 0` vanishes exactly when both raw gaps are
non-positive. -/
lemma max_max_zero_eq_zero_iff (A B : ℚ) :
    max (max A B) 0 = 0 ↔ A ≤ 0 ∧ B ≤ 0 := by
  rw [max_eq_right_iff, max_le_iff]

end BoundingBox

/-! ### Claims -/

open BoundingBox

/-- C1: `BoundingBox` construction succeeds (storing the four fields
unchanged) iff `x1 < x2`, `y1 < y2`, `x1 ≥ 0` and `y1 ≥ 0`; otherwise it
fails with `InvalidBoundingBoxError`, checking the invariants in the order
`x1<x2`, `y1<y2`, `x1≥0`, `y1≥0` and reporting the first violated constraint
with the offending value(s). -/
theorem mk'_validates (x1 y1 x2 y2 : ℚ) :
    ((∃ b, mk' x1 y1 x2 y2 = .ok b) ↔ x1 < x2 ∧ y1 < y2 ∧ 0 ≤ x1 ∧ 0 ≤ y1) ∧
    (mk' x1 y1 x2 y2 = .ok ⟨x1, y1, x2, y2⟩ ↔
      x1 < x2 ∧ y1 < y2 ∧ 0 ≤ x1 ∧ 0 ≤ y1) ∧
    (x2 ≤ x1 → mk' x1 y1 x2 y2 = .error (.x1GeX2 x1 x2)) ∧
    (x1 < x2 → y2 ≤ y1 → mk' x1 y1 x2 y2 = .error (.y1GeY2 y1 y2)) ∧
    (x1 < x2 → y1 < y2 → x1 < 0 → mk' x1 y1 x2 y2 = .error (.x1Neg x1)) ∧
    (x1 < x2 → y1 < y2 → 0 ≤ x1 → y1 < 0 →
      mk' x1 y1 x2 y2 = .error (.y1Neg y1)) := by
  unfold mk'
  split_ifs with h1 h2 h3 h4 <;> simp_all [ge_iff_le, not_le, not_lt]

/-- Witness for C1: at `(0, 3, 2, 1)` the `y1 < y2` check is the first to
fail and is reported with both offending values. -/
theorem mk'_validates_witness :
    mk' 0 3 2 1 = .error (.y1GeY2 3 1) :=
  (mk'_validates 0 3 2 1).2.2.2.1 (by norm_num) (by norm_num)

/-- C2 counterexample: the boxes `(0,0,5,5)` and `(5,0,10,5)` touch along the
edge `x = 5`, so `overlaps` is false, yet both per-axis gaps are `0` and
`edge_distance` returns `0.0`: the claimed equivalence fails. -/
theorem edge_distance_zero_without_overlap :
    BoundingBox.Valid ⟨0, 0, 5, 5⟩ ∧ BoundingBox.Valid ⟨5, 0, 10, 5⟩ ∧
      overlaps ⟨0, 0, 5, 5⟩ ⟨5, 0, 10, 5⟩ = false ∧
      BoundingBox.edge_distance ⟨0, 0, 5, 5⟩ ⟨5, 0, 10, 5⟩ = 0 := by
  have hov : overlaps ⟨0, 0, 5, 5⟩ ⟨5, 0, 10, 5⟩ = false := by
    rw [Bool.eq_false_iff]
    intro h
    have := (overlaps_true_iff ⟨0, 0, 5, 5⟩ ⟨5, 0, 10, 5⟩).mp h
    norm_num at this
  refine ⟨⟨by norm_num, by norm_num, le_refl 0, le_refl 0⟩,
    ⟨by norm_num, by norm_num, by norm_num, le_refl 0⟩, hov, ?_⟩
  simp only [BoundingBox.edge_distance]
  rw [if_neg (by rw [hov]; exact Bool.false_ne_true)]
  have h1 : max (max ((5:ℚ) - 5) (0 - 10)) 0 = 0 :=
    (max_max_zero_eq_zero_iff _ _).mpr ⟨by norm_num, by norm_num⟩
  have h2 : max (max ((0:ℚ) - 5) (0 - 5)) 0 = 0 :=
    (max_max_zero_eq_zero_iff _ _).mpr ⟨by norm_num, by norm_num⟩
  rw [h1, h2]
  norm_num

/-- C2 (amended): for valid boxes, `edge_distance(a,b) = 0` exactly when the
closed rectangles intersect, i.e. when the boxes overlap **or merely touch**
at an edge or corner; strict `overlaps` implies distance zero, but the
converse fails for touching boxes. -/
theorem edge_distance_eq_zero_iff (a b : BoundingBox)
    (ha : a.Valid) (hb : b.Valid) :
    BoundingBox.edge_distance a b = 0 ↔
      b.x1 ≤ a.x2 ∧ a.x1 ≤ b.x2 ∧ b.y1 ≤ a.y2 ∧ a.y1 ≤ b.y2 := by
  by_cases hov : overlaps a b = true
  · obtain ⟨h1, h2, h3, h4⟩ := (overlaps_true_iff a b).mp hov
    simp only [BoundingBox.edge_distance]
    rw [if_pos hov]
    exact ⟨fun _ => ⟨le_of_lt h1, le_of_lt h2, le_of_lt h3, le_of_lt h4⟩,
      fun _ => rfl⟩
  · simp only [BoundingBox.edge_distance]
    rw [if_neg hov, Real.sqrt_eq_zero', sq_sum_nonpos_iff,
      max_max_zero_eq_zero_iff, max_max_zero_eq_zero_iff]
    constructor
    · rintro ⟨⟨g1, g2⟩, g3, g4⟩
      exact ⟨by linarith, by linarith, by linarith, by linarith⟩
    · rintro ⟨g1, g2, g3, g4⟩
      exact ⟨⟨by linarith, by linarith⟩, by linarith, by linarith⟩

/-- Witness for C2 (amended): the overlapping boxes `(0,0,5,5)` and
`(3,3,8,8)` have edge distance `0`. -/
theorem edge_distance_eq_zero_iff_witness :
    BoundingBox.edge_distance ⟨0, 0, 5, 5⟩ ⟨3, 3, 8, 8⟩ = 0 :=
  (edge_distance_eq_zero_iff ⟨0, 0, 5, 5⟩ ⟨3, 3, 8, 8⟩
    ⟨by norm_num, by norm_num, le_refl 0, le_refl 0⟩
    ⟨by norm_num, by norm_num, by norm_num, by norm_num⟩).mpr
    (by norm_num)

/-- C3 counterexample: `translate` does construct its result through the
validating constructor, so shifting a valid box's `x1` below zero raises
`InvalidBoundingBoxError` rather than returning a shifted box. -/
theorem translate_revalidates_counterexample :
    BoundingBox.Valid ⟨0, 0, 10, 10⟩ ∧
      BoundingBox.translate ⟨0, 0, 10, 10⟩ (-1) 0 = .error (.x1Neg (-1)) := by
  constructor
  · exact ⟨by norm_num, by norm_num, le_refl 0, le_refl 0⟩
  · simp [BoundingBox.translate, mk']; norm_num

/-- C3 (amended): `translate` shifts all four coordinates by the offset and
re-validates through the constructor: for a valid box it succeeds exactly when
the shifted `x1` and `y1` stay non-negative, and otherwise raises
`InvalidBoundingBoxError` naming the violated non-negativity constraint. -/
theorem translate_spec (b : BoundingBox) (dx dy : ℚ) (h : b.Valid) :
    (b.translate dx dy = .ok ⟨b.x1 + dx, b.y1 + dy, b.x2 + dx, b.y2 + dy⟩ ↔
      0 ≤ b.x1 + dx ∧ 0 ≤ b.y1 + dy) ∧
    (b.x1 + dx < 0 → b.translate dx dy = .error (.x1Neg (b.x1 + dx))) ∧
    (0 ≤ b.x1 + dx → b.y1 + dy < 0 →
      b.translate dx dy = .error (.y1Neg (b.y1 + dy))) := by
  obtain ⟨hx, hy, _, _⟩ := h
  unfold BoundingBox.translate mk'
  have h1 : ¬ (b.x1 + dx ≥ b.x2 + dx) := by simp; linarith
  have h2 : ¬ (b.y1 + dy ≥ b.y2 + dy) := by simp; linarith
  simp only [h1, if_false, h2]
  split_ifs with h3 h4 <;> simp_all [not_lt]

/-- Witness for C3 (amended): translating `(1, 1, 3, 3)` by `(-1, -1)`
succeeds and yields `(0, 0, 2, 2)`. -/
theorem translate_spec_witness :
    BoundingBox.translate ⟨1, 1, 3, 3⟩ (-1) (-1) = .ok ⟨0, 0, 2, 2⟩ := by
  have h := (translate_spec ⟨1, 1, 3, 3⟩ (-1) (-1)
    ⟨by norm_num, by norm_num, by norm_num, by norm_num⟩).1.mpr
    (by constructor <;> norm_num)
  norm_num at h
  exact h

/-- C5: for valid boxes, `intersection` returns `None` exactly when
`overlaps` is false, and otherwise returns the box spanning the per-axis
overlap (max of the `x1`/`y1` coordinates, min of the `x2`/`y2`
coordinates). -/
theorem intersection_none_iff_not_overlaps (a b : BoundingBox)
    (ha : a.Valid) (hb : b.Valid) :
    (a.intersection b = .ok none ↔ overlaps a b = false) ∧
    (overlaps a b = true →
      a.intersection b =
        .ok (some ⟨max a.x1 b.x1, max a.y1 b.y1,
          min a.x2 b.x2, min a.y2 b.y2⟩)) := by
  have hdeg := overlaps_false_iff_degenerate a b ha hb
  by_cases hc : min a.x2 b.x2 ≤ max a.x1 b.x1 ∨ min a.y2 b.y2 ≤ max a.y1 b.y1
  · have hov : overlaps a b = false := hdeg.mpr hc
    have hres : a.intersection b = .ok none := by
      simp only [BoundingBox.intersection]
      rw [if_pos hc]
    exact ⟨⟨fun _ => hov, fun _ => hres⟩, fun h => by rw [hov] at h; cases h⟩
  · push_neg at hc
    obtain ⟨hx, hy⟩ := hc
    have hmk := mk'_inter_ok a b ha hx hy
    have hres : a.intersection b =
        .ok (some ⟨max a.x1 b.x1, max a.y1 b.y1,
          min a.x2 b.x2, min a.y2 b.y2⟩) := by
      simp only [BoundingBox.intersection]
      rw [if_neg (by push_neg; exact ⟨hx, hy⟩), hmk]
      rfl
    refine ⟨⟨fun h => ?_, fun h => ?_⟩, fun _ => hres⟩
    · rw [hres] at h; cases h
    · rw [hdeg] at h
      exact absurd h (by push_neg; exact ⟨hx, hy⟩)

/-- Witness for C5: the disjoint boxes `(0,0,2,2)` and `(3,3,5,5)` have
`intersection = None` and `overlaps = false`. -/
theorem intersection_none_iff_not_overlaps_witness :
    BoundingBox.intersection ⟨0, 0, 2, 2⟩ ⟨3, 3, 5, 5⟩ = .ok none :=
  (intersection_none_iff_not_overlaps ⟨0, 0, 2, 2⟩ ⟨3, 3, 5, 5⟩
    ⟨by norm_num, by norm_num, le_refl 0, le_refl 0⟩
    ⟨by norm_num, by norm_num, by norm_num, by norm_num⟩).1.mpr (by decide)

/-- C6: when the per-axis overlap of two valid boxes is non-degenerate, the
constructor call inside `intersection` cannot fail: the overlap coordinates
satisfy all four invariants, so the error branch is unreachable there. -/
theorem intersection_construction_safe (a b : BoundingBox)
    (ha : a.Valid) (hb : b.Valid)
    (hx : max a.x1 b.x1 < min a.x2 b.x2)
    (hy : max a.y1 b.y1 < min a.y2 b.y2) :
    mk' (max a.x1 b.x1) (max a.y1 b.y1) (min a.x2 b.x2) (min a.y2 b.y2) =
      .ok ⟨max a.x1 b.x1, max a.y1 b.y1, min a.x2 b.x2, min a.y2 b.y2⟩ ∧
    ∀ e : BoxError, a.intersection b ≠ .error e := by
  have hmk := mk'_inter_ok a b ha hx hy
  refine ⟨hmk, fun e h => ?_⟩
  simp only [BoundingBox.intersection] at h
  rw [if_neg (by push_neg; exact ⟨hx, hy⟩), hmk] at h
  cases h

/-- Witness for C6: `(0,0,4,4)` and `(2,2,6,6)` overlap on `(2,2)–(4,4)` and
the constructor there succeeds. -/
theorem intersection_construction_safe_witness :
    mk' (max (0:ℚ) 2) (max (0:ℚ) 2) (min (4:ℚ) 6) (min (4:ℚ) 6) =
      .ok ⟨max (0:ℚ) 2, max (0:ℚ) 2, min (4:ℚ) 6, min (4:ℚ) 6⟩ :=
  (intersection_construction_safe ⟨0, 0, 4, 4⟩ ⟨2, 2, 6, 6⟩
    ⟨by norm_num, by norm_num, le_refl 0, le_refl 0⟩
    ⟨by norm_num, by norm_num, by norm_num, by norm_num⟩
    (by norm_num) (by norm_num)).1

/-- C4: whenever `translate` returns a box, that box has the same width and
height as the input box. -/
theorem translate_preserves_size (b b' : BoundingBox) (dx dy : ℚ)
    (h : b.translate dx dy = .ok b') :
    b'.width = b.width ∧ b'.height = b.height := by
  unfold BoundingBox.translate mk' at h
  split_ifs at h
  cases h
  constructor <;> simp [width, height]

/-- Witness for C4: translating `(0, 0, 4, 2)` by `(5, 7)` keeps width `4`
and height `2`. -/
theorem translate_preserves_size_witness :
    BoundingBox.width ⟨5, 7, 9, 9⟩ = BoundingBox.width ⟨0, 0, 4, 2⟩ ∧
      BoundingBox.height ⟨5, 7, 9, 9⟩ = BoundingBox.height ⟨0, 0, 4, 2⟩ :=
  translate_preserves_size ⟨0, 0, 4, 2⟩ ⟨5, 7, 9, 9⟩ 5 7 (by
    simp [BoundingBox.translate, mk']; norm_num)

/-- C7: for valid boxes, `iou` returns exactly `0` when the per-axis
intersection rectangle is degenerate (disjoint or merely touching), otherwise
returns `intersection_area / (area_a + area_b - intersection_area)`, and in
all cases the result lies in `[0, 1]`. -/
theorem iou_spec (a b : BoundingBox) (ha : a.Valid) (hb : b.Valid) :
    (min a.x2 b.x2 ≤ max a.x1 b.x1 ∨ min a.y2 b.y2 ≤ max a.y1 b.y1 →
      iou a b = 0) ∧
    (max a.x1 b.x1 < min a.x2 b.x2 → max a.y1 b.y1 < min a.y2 b.y2 →
      iou a b = interArea a b / (a.area + b.area - interArea a b)) ∧
    0 ≤ iou a b ∧ iou a b ≤ 1 := by
  obtain ⟨hax, hay, hax0, hay0⟩ := ha
  obtain ⟨hbx, hby, hbx0, hby0⟩ := hb
  by_cases hc : min a.x2 b.x2 ≤ max a.x1 b.x1 ∨ min a.y2 b.y2 ≤ max a.y1 b.y1
  · have h0 : iou a b = 0 := by
      simp only [iou]
      rw [if_pos hc]
    refine ⟨fun _ => h0, fun hx hy => ?_, by rw [h0], by rw [h0]; norm_num⟩
    exact absurd hc (by push_neg; exact ⟨hx, hy⟩)
  · push_neg at hc
    obtain ⟨hx, hy⟩ := hc
    have heq : iou a b = interArea a b / (a.area + b.area - interArea a b) := by
      simp only [iou, interArea]
      rw [if_neg (by push_neg; exact ⟨hx, hy⟩)]
    have hw : 0 < min a.x2 b.x2 - max a.x1 b.x1 := by linarith
    have hh : 0 < min a.y2 b.y2 - max a.y1 b.y1 := by linarith
    have hI : 0 < interArea a b := mul_pos hw hh
    have hIA : interArea a b ≤ a.area := by
      unfold interArea area width height
      have h1 : min a.x2 b.x2 - max a.x1 b.x1 ≤ a.x2 - a.x1 := by
        have := min_le_left a.x2 b.x2
        have := le_max_left a.x1 b.x1
        linarith
      have h2 : min a.y2 b.y2 - max a.y1 b.y1 ≤ a.y2 - a.y1 := by
        have := min_le_left a.y2 b.y2
        have := le_max_left a.y1 b.y1
        linarith
      exact mul_le_mul h1 h2 (le_of_lt hh) (by linarith)
    have hIB : interArea a b ≤ b.area := by
      unfold interArea area width height
      have h1 : min a.x2 b.x2 - max a.x1 b.x1 ≤ b.x2 - b.x1 := by
        have := min_le_right a.x2 b.x2
        have := le_max_right a.x1 b.x1
        linarith
      have h2 : min a.y2 b.y2 - max a.y1 b.y1 ≤ b.y2 - b.y1 := by
        have := min_le_right a.y2 b.y2
        have := le_max_right a.y1 b.y1
        linarith
      exact mul_le_mul h1 h2 (le_of_lt hh) (by linarith)
    have hBpos : 0 < b.area := by
      unfold area width height
      exact mul_pos (by linarith) (by linarith)
    have hU : 0 < a.area + b.area - interArea a b := by linarith
    refine ⟨fun h => absurd h (by push_neg; exact ⟨hx, hy⟩),
      fun _ _ => heq, ?_, ?_⟩
    · rw [heq]
      exact div_nonneg (le_of_lt hI) (le_of_lt hU)
    · rw [heq, div_le_one hU]
      linarith

/-- Witness for C7: `iou((5,5,15,15), (8,8,18,18)) = 49/151`, and the general
theorem yields the `[0, 1]` bounds at that input. -/
theorem iou_spec_witness :
    iou ⟨5, 5, 15, 15⟩ ⟨8, 8, 18, 18⟩ = 49 / 151 ∧
      0 ≤ iou ⟨5, 5, 15, 15⟩ ⟨8, 8, 18, 18⟩ ∧
      iou ⟨5, 5, 15, 15⟩ ⟨8, 8, 18, 18⟩ ≤ 1 :=
  ⟨by norm_num [iou, area, width, height, min_def, max_def],
   (iou_spec ⟨5, 5, 15, 15⟩ ⟨8, 8, 18, 18⟩
     ⟨by norm_num, by norm_num, by norm_num, by norm_num⟩
     ⟨by norm_num, by norm_num, by norm_num, by norm_num⟩).2.2⟩

/-- C8: scaling a valid box by factor `1` is the identity: the half-extents
are unchanged, the `max 0` clamp is a no-op because `x1 ≥ 0` and `y1 ≥ 0`,
and the re-constructed box equals the original. -/
theorem scale_one_identity (b : BoundingBox) (h : b.Valid) :
    b.scale 1 = .ok b := by
  obtain ⟨hx, hy, hx0, hy0⟩ := h
  simp only [BoundingBox.scale, center, width, height]
  rw [show (b.x1 + b.x2) / 2 - (b.x2 - b.x1) * 1 / 2 = b.x1 from by ring,
    show (b.y1 + b.y2) / 2 - (b.y2 - b.y1) * 1 / 2 = b.y1 from by ring,
    show (b.x1 + b.x2) / 2 + (b.x2 - b.x1) * 1 / 2 = b.x2 from by ring,
    show (b.y1 + b.y2) / 2 + (b.y2 - b.y1) * 1 / 2 = b.y2 from by ring,
    max_eq_right hx0, max_eq_right hy0]
  unfold mk'
  rw [if_neg (by simp; linarith), if_neg (by simp; linarith),
    if_neg (by simp; linarith), if_neg (by simp; linarith)]

/-- Witness for C8: scaling `(1,2,5,8)` by `1` returns the same box. -/
theorem scale_one_identity_witness :
    BoundingBox.scale ⟨1, 2, 5, 8⟩ 1 = .ok ⟨1, 2, 5, 8⟩ :=
  scale_one_identity ⟨1, 2, 5, 8⟩ ⟨by norm_num, by norm_num, by norm_num,
    by norm_num⟩

/-- C10: scaling a valid box by any factor `≤ 0` raises
`InvalidBoundingBoxError`: the scaled half-extents are non-positive, so the
clamped `x1` is at least the new `x2` and the constructor rejects the result
on its first check. -/
theorem scale_nonpos_fails (b : BoundingBox) (f : ℚ)
    (h : b.Valid) (hf : f ≤ 0) :
    b.scale f = .error (.x1GeX2 (max 0 (b.center.1 - b.width * f / 2))
      (b.center.1 + b.width * f / 2)) := by
  obtain ⟨hx, hy, hx0, hy0⟩ := h
  have hw : 0 < b.width := by unfold width; linarith
  have hnhw : b.width * f / 2 ≤ 0 := by
    have : b.width * f ≤ 0 := mul_nonpos_of_nonneg_of_nonpos (le_of_lt hw) hf
    linarith
  have hle : b.center.1 + b.width * f / 2 ≤
      max 0 (b.center.1 - b.width * f / 2) :=
    le_trans (by linarith) (le_max_right _ _)
  simp only [BoundingBox.scale]
  unfold mk'
  rw [if_pos hle]

/-- Witness for C10: scaling `(0,0,2,2)` by `0` fails with the `x1 < x2`
error at the collapsed coordinates. -/
theorem scale_nonpos_fails_witness :
    BoundingBox.scale ⟨0, 0, 2, 2⟩ 0 = .error (.x1GeX2 1 1) := by
  have h := scale_nonpos_fails ⟨0, 0, 2, 2⟩ 0
    ⟨by norm_num, by norm_num, le_refl 0, le_refl 0⟩ (le_refl 0)
  have hc : BoundingBox.center ⟨0, 0, 2, 2⟩ = (1, 1) := by
    unfold center
    norm_num
  rw [hc] at h
  have hwd : BoundingBox.width ⟨0, 0, 2, 2⟩ = 2 := by
    unfold width
    norm_num
  rw [hwd] at h
  norm_num at h
  exact h

/-- C9: evaluation of the `inspect` / `inspect_err` taps on both variants.
`Ok.inspect` calls the callback on the value and passes the result through,
and `Ok.inspect_err` is a no-op pass-through; but `Err.inspect` raises
`AttributeError` (it reads the non-existent attribute `value` on `Err`), and
`Err.inspect_err` returns `self` without ever invoking the callback, so the
claimed behaviour fails on the `Err` variant. -/
theorem inspect_taps_eval :
    PyResult.inspect (PyResult.Err 0 : PyResult ℤ ℤ) (fun _ => ()) =
      .error .attributeError ∧
    PyResult.inspect_err (PyResult.Err 0 : PyResult ℤ ℤ) (fun _ => ()) =
      .ok (.Err 0, []) ∧
    PyResult.inspect (PyResult.Ok 7 : PyResult ℤ ℤ) (fun _ => ()) =
      .ok (.Ok 7, [7]) ∧
    PyResult.inspect_err (PyResult.Ok 7 : PyResult ℤ ℤ) (fun _ => ()) =
      .ok (.Ok 7, []) :=
  ⟨rfl, rfl, rfl, rfl⟩

end Traffic
